import Mathlib

/-!
Shallow embedding of the Trading Economics FastAPI application (src/main.py).

The external provider call `te.getIndicatorData(country, indicators, output_type='df')`
is modelled by an oracle of type `Provider`: for each (country, indicator) pair it
either raises, returns a null result, or returns a dataframe, i.e. a list of rows.
A row carries the columns the source reads via `latest.get(col, default)`; a column
may be absent (`none`). The wall clock (`datetime.now().isoformat()`) is passed in
as an explicit `now` string. `HTTPException` raising is modelled with `Except`.
Pydantic model construction `EconomicIndicator(**...)` coerces the
`Optional[float]` fields with `float(...)` and raises `ValidationError` when a
present cell — such as the ISO timestamp that fills `value` from the LastUpdate
column — is not float-coercible; this check is modelled by `indicatorValidates`
and threaded through every construction site, making the aggregation and the
list endpoints fallible exactly where the source is.
-/

/-- A dataframe row, holding the columns that `safe_get_indicator_data` reads.
`none` models an absent column (the default branch of `Series.get`). -/
structure Row where
  Country : Option String
  LastUpdate : Option String
  PreviousValue : Option String
  Unit : Option String
  Frequency : Option String
deriving Repr, DecidableEq

/-- Outcome of one call to the external client `te.getIndicatorData`:
the call raises, returns `None`, or returns a dataframe (list of rows,
possibly empty). -/
inductive FetchResult where
  | raises : FetchResult
  | nullResult : FetchResult
  | frame : List Row → FetchResult
deriving Repr, DecidableEq

/-- The external provider as an oracle: country and indicator name in,
one `FetchResult` out. -/
def Provider : Type := String → String → FetchResult

/-- Pydantic model `EconomicIndicator` (src/main.py lines 62-69), also used
here for the keyword dict built by `safe_get_indicator_data`, from which the
model is constructed. Cell values are carried as the strings the dataframe
holds; a float produced by the pydantic coercion of the `Optional[float]`
fields is represented by the string it was parsed from, and the coercion
check itself is `indicatorValidates` below, applied at every
`EconomicIndicator(**...)` construction site of the source. -/
structure EconomicIndicator where
  country : String
  indicator : String
  value : Option String
  previous_value : Option String
  last_update : Option String
  unit : Option String
  frequency : Option String
deriving Repr, DecidableEq

/-- Pydantic model `CountryEconomicData` (src/main.py lines 71-77). -/
structure CountryEconomicData where
  country : String
  interest_rate : Option EconomicIndicator
  gdp_growth : Option EconomicIndicator
  inflation_rate : Option EconomicIndicator
  unemployment_rate : Option EconomicIndicator
  last_updated : String
deriving Repr, DecidableEq

/-- Pydantic model `CurrencyPairData` (src/main.py lines 79-83). -/
structure CurrencyPairData where
  base_currency : String
  quote_currency : String
  base_country_data : CountryEconomicData
  quote_country_data : CountryEconomicData
deriving Repr, DecidableEq

/-- FastAPI `HTTPException`, as raised by the route handlers. -/
structure HTTPException where
  status_code : Nat
  detail : String
deriving Repr, DecidableEq

/-- `safe_get_indicator_data` (src/main.py lines 86-103): calls the provider;
on an exception, a null result or an empty frame it returns `none`, otherwise
it builds the indicator record from the last row (`data.iloc[-1]`). -/
def safe_get_indicator_data (p : Provider) (country indicator : String) :
    Option EconomicIndicator :=
  match p country indicator with
  | FetchResult.raises => none
  | FetchResult.nullResult => none
  | FetchResult.frame rows =>
    match rows.getLast? with
    | none => none
    | some latest => some
      { country := latest.Country.getD country
        indicator := indicator
        value := latest.LastUpdate
        previous_value := latest.PreviousValue
        last_update := latest.LastUpdate
        unit := latest.Unit
        frequency := latest.Frequency }

/-- Helper for `floatCoercible`: the character list is all decimal digits. -/
def allDigits : List Char → Bool
  | [] => true
  | c :: cs => c.isDigit && allDigits cs

/-- Helper for `floatCoercible`: digits, optionally followed by one decimal
point and further digits. -/
def intPartThenFrac : List Char → Bool
  | [] => true
  | '.' :: rest => allDigits rest
  | c :: cs => c.isDigit && intPartThenFrac cs

/-- Whether CPython `float(s)` accepts the string `s`, for the ordinary
decimal strings handled in this development: an optional sign, then digits
with at most one decimal point and at least one digit. The exponent form,
infinities, NaN, digit underscores and surrounding whitespace that `float`
also accepts do not occur in any input considered here and are left out.
This is the acceptance test of the pydantic coercion of a string cell into
the `Optional[float]` fields of `EconomicIndicator`; in particular an ISO
timestamp such as "2024-01-02T00:00:00" is rejected. -/
def floatCoercible (s : String) : Bool :=
  let body : List Char :=
    match s.data with
    | '+' :: rest => rest
    | '-' :: rest => rest
    | cs => cs
  match body with
  | [] => false
  | '.' :: rest => !rest.isEmpty && allDigits rest
  | c :: cs => c.isDigit && intPartThenFrac cs

/-- Pydantic validation performed by `EconomicIndicator(**indicator_data)`
(src/main.py line 118 and lines 244, 260, 276, 292): the model declares
`value` and `previous_value` as `Optional[float]`, so a present string cell
must coerce via `float(...)`; the str-typed fields always validate. -/
def indicatorValidates (d : EconomicIndicator) : Bool :=
  (match d.value with
   | none => true
   | some s => floatCoercible s) &&
  (match d.previous_value with
   | none => true
   | some s => floatCoercible s)

/-- Pydantic `ValidationError`, raised by a failed model construction. -/
structure ValidationError where
  detail : String
deriving Repr, DecidableEq

/-- One iteration of the aggregation loop (src/main.py lines 115-120): fetch
the indicator, and when a dict came back construct the pydantic model, which
raises `ValidationError` when an `Optional[float]` field fails coercion. -/
def build_indicator (p : Provider) (country indicator : String) :
    Except ValidationError (Option EconomicIndicator) :=
  match safe_get_indicator_data p country indicator with
  | none => Except.ok none
  | some d =>
    if indicatorValidates d then Except.ok (some d)
    else Except.error ⟨"value is not a valid float"⟩

/-- `get_country_economic_data` (src/main.py lines 105-126): four sequential
fetch-and-construct steps in the dict order of the source, then the composite
record with the server timestamp. A `ValidationError` raised at any step
aborts the remaining steps and propagates to the caller. -/
def get_country_economic_data (p : Provider) (now : String) (country : String) :
    Except ValidationError CountryEconomicData :=
  (build_indicator p country "Interest Rate").bind fun interest_rate =>
  (build_indicator p country "GDP Growth Rate").bind fun gdp_growth =>
  (build_indicator p country "Inflation Rate").bind fun inflation_rate =>
  (build_indicator p country "Unemployment Rate").bind fun unemployment_rate =>
  Except.ok
    { country := country
      interest_rate := interest_rate
      gdp_growth := gdp_growth
      inflation_rate := inflation_rate
      unemployment_rate := unemployment_rate
      last_updated := now }

/-- `CURRENCY_COUNTRY_MAP` (src/main.py lines 129-154), as an association list
in the insertion order of the Python dict. -/
def CURRENCY_COUNTRY_MAP : List (String × String) :=
  [("USD", "United States"),
   ("EUR", "Euro Area"),
   ("GBP", "United Kingdom"),
   ("JPY", "Japan"),
   ("CHF", "Switzerland"),
   ("CAD", "Canada"),
   ("AUD", "Australia"),
   ("NZD", "New Zealand"),
   ("SEK", "Sweden"),
   ("NOK", "Norway"),
   ("DKK", "Denmark"),
   ("PLN", "Poland"),
   ("CZK", "Czech Republic"),
   ("HUF", "Hungary"),
   ("SGD", "Singapore"),
   ("HKD", "Hong Kong"),
   ("KRW", "South Korea"),
   ("CNY", "China"),
   ("INR", "India"),
   ("BRL", "Brazil"),
   ("MXN", "Mexico"),
   ("ZAR", "South Africa"),
   ("RUB", "Russia"),
   ("TRY", "Turkey")]

/-- `GET /currencies` handler `get_available_currencies` (src/main.py
lines 189-192): `list(CURRENCY_COUNTRY_MAP.keys())`. -/
def get_available_currencies : List String :=
  CURRENCY_COUNTRY_MAP.map Prod.fst

/-- `GET /indicators/{country}` handler `get_country_indicators` (src/main.py
lines 194-202): returns the composite record, or HTTP 500 when the
aggregation raises (reachable through `ValidationError`). -/
def get_country_indicators (p : Provider) (now : String) (country : String) :
    Except HTTPException CountryEconomicData :=
  match get_country_economic_data p now country with
  | Except.ok d => Except.ok d
  | Except.error _ =>
    Except.error ⟨500, "Error fetching data for " ++ country⟩

/-- Python `str.upper()` on the character sequence of the string. Currency
codes are ASCII, on which `Char.toUpper` agrees with Python; this definition
reduces in the kernel, unlike `String.toUpper`. -/
def upper (s : String) : String :=
  String.mk (s.data.map Char.toUpper)

/-- `GET /currency-pairs/{base}/{quote}` handler `get_currency_pair_data`
(src/main.py lines 204-230): uppercases both codes, 404 when either is not a
key of the table, then composes the two country aggregations inside the
`try` block; an aggregation error becomes HTTP 500. -/
def get_currency_pair_data (p : Provider) (now : String) (base quote : String) :
    Except HTTPException CurrencyPairData :=
  let b := upper base
  let q := upper quote
  match CURRENCY_COUNTRY_MAP.lookup b with
  | none => Except.error ⟨404, "Currency " ++ b ++ " not supported"⟩
  | some base_country =>
    match CURRENCY_COUNTRY_MAP.lookup q with
    | none => Except.error ⟨404, "Currency " ++ q ++ " not supported"⟩
    | some quote_country =>
      match get_country_economic_data p now base_country with
      | Except.error _ =>
        Except.error ⟨500, "Error fetching currency pair data"⟩
      | Except.ok base_data =>
        match get_country_economic_data p now quote_country with
        | Except.error _ =>
          Except.error ⟨500, "Error fetching currency pair data"⟩
        | Except.ok quote_data =>
          Except.ok
            { base_currency := b
              quote_currency := q
              base_country_data := base_data
              quote_country_data := quote_data }

/-- The first 10 values of the static table: the default country list of the
four list endpoints (`list(CURRENCY_COUNTRY_MAP.values())[:10]`). -/
def default_major_countries : List String :=
  (CURRENCY_COUNTRY_MAP.map Prod.snd).take 10

/-- Python truthiness test `if not countries:` on an optional list parameter:
`None` and the empty list both select the default. -/
def resolve_countries (countries : Option (List String)) : List String :=
  match countries with
  | none => default_major_countries
  | some [] => default_major_countries
  | some l => l

/-- The result-collection loop shared in shape by the four list endpoints
(e.g. src/main.py lines 240-246): per country, fetch and, when a dict came
back, construct the pydantic model and append it. The construction sits
outside any `try`, so a `ValidationError` aborts the whole request instead
of omitting the entry. -/
def collect_indicators (p : Provider) (indicator : String) :
    List String → Except ValidationError (List EconomicIndicator)
  | [] => Except.ok []
  | country :: rest =>
    (build_indicator p country indicator).bind fun d =>
    (collect_indicators p indicator rest).bind fun tl =>
    Except.ok
      (match d with
       | none => tl
       | some d0 => d0 :: tl)

/-- `GET /interest-rates` handler `get_interest_rates` (src/main.py
lines 232-246). -/
def get_interest_rates (p : Provider) (countries : Option (List String)) :
    Except ValidationError (List EconomicIndicator) :=
  collect_indicators p "Interest Rate" (resolve_countries countries)

/-- `GET /gdp-growth` handler `get_gdp_growth` (src/main.py lines 248-262). -/
def get_gdp_growth (p : Provider) (countries : Option (List String)) :
    Except ValidationError (List EconomicIndicator) :=
  collect_indicators p "GDP Growth Rate" (resolve_countries countries)

/-- `GET /inflation` handler `get_inflation_rates` (src/main.py
lines 264-278). -/
def get_inflation_rates (p : Provider) (countries : Option (List String)) :
    Except ValidationError (List EconomicIndicator) :=
  collect_indicators p "Inflation Rate" (resolve_countries countries)

/-- `GET /unemployment` handler `get_unemployment_rates` (src/main.py
lines 280-294). -/
def get_unemployment_rates (p : Provider) (countries : Option (List String)) :
    Except ValidationError (List EconomicIndicator) :=
  collect_indicators p "Unemployment Rate" (resolve_countries countries)

/-- `major_currencies` of `get_all_major_currency_pairs` (src/main.py
line 299). -/
def major_currencies : List String :=
  ["USD", "EUR", "GBP", "JPY", "CHF", "CAD", "AUD"]

/-- `base_currencies` of `get_all_major_currency_pairs` (src/main.py
line 303). -/
def base_currencies : List String :=
  ["USD", "EUR", "GBP"]

/-- `GET /all-currency-pairs` handler `get_all_major_currency_pairs`
(src/main.py lines 296-315): nested loop over base and quote currencies,
skipping equal pairs, appending a pair when the composer call succeeds and
dropping it (after a log line) when it raises. -/
def get_all_major_currency_pairs (p : Provider) (now : String) :
    List CurrencyPairData :=
  base_currencies.flatMap (fun base =>
    major_currencies.filterMap (fun quote =>
      if base ≠ quote then (get_currency_pair_data p now base quote).toOption
      else none))

/-- The 18 base/quote combinations the sweep visits, in visit order. -/
def all_pair_combinations : List (String × String) :=
  base_currencies.flatMap (fun base =>
    (major_currencies.filter (fun quote => base ≠ quote)).map
      (fun quote => (base, quote)))

/-! Concrete providers used by the witness statements. -/

/-- A provider whose every call raises, modelling total provider failure. -/
def raisingProvider : Provider := fun _ _ => FetchResult.raises

/-- A provider whose every call returns an empty dataframe. -/
def emptyFrameProvider : Provider := fun _ _ => FetchResult.frame []

/-- A sample dataframe row used in concrete witnesses. -/
def sampleRow : Row :=
  { Country := some "Japan"
    LastUpdate := some "2024-01-02T00:00:00"
    PreviousValue := some "0.1"
    Unit := some "percent"
    Frequency := some "Monthly" }

/-- A provider answering every call with a one-row frame. -/
def oneRowProvider : Provider := fun _ _ => FetchResult.frame [sampleRow]

/-- The composite record for a country on which every fetch failed. -/
def allAbsent (country now : String) : CountryEconomicData :=
  { country := country
    interest_rate := none
    gdp_growth := none
    inflation_rate := none
    unemployment_rate := none
    last_updated := now }

/-- The pair record the handler returns for "usd"/"eUr" when every fetch
fails. -/
def usdEurAllAbsent : CurrencyPairData :=
  { base_currency := "USD"
    quote_currency := "EUR"
    base_country_data := allAbsent "United States" "t0"
    quote_country_data := allAbsent "Euro Area" "t0" }

/-- The record `safe_get_indicator_data` extracts from `oneRowProvider`. -/
def sampleIndicator : EconomicIndicator :=
  { country := "Japan"
    indicator := "Interest Rate"
    value := some "2024-01-02T00:00:00"
    previous_value := some "0.1"
    last_update := some "2024-01-02T00:00:00"
    unit := some "percent"
    frequency := some "Monthly" }

/-- Keeping the successful images of the elements passing a filter is one
filterMap with the filter folded into the condition. -/
theorem filterMap_map_filter {α β γ : Type} (p : α → Bool) (m : α → β)
    (f : β → Option γ) :
    ∀ l : List α,
      ((l.filter p).map m).filterMap f =
      l.filterMap (fun a => if p a then f (m a) else none)
  | [] => rfl
  | a :: l => by
    cases hpa : p a
    · simp [List.filter_cons, hpa, filterMap_map_filter p m f l]
    · cases hfa : f (m a) <;>
        simp [List.filter_cons, List.filterMap_cons, hpa, hfa,
              filterMap_map_filter p m f l]

/-! Claim theorems. -/

/-- C1: the claim fails on the code. With a provider whose fetch succeeds
and carries the usual ISO timestamp in the LastUpdate column, the aggregator
raises `ValidationError` at the `EconomicIndicator(**...)` construction of
src/main.py line 118 — `value`, filled from LastUpdate, does not coerce to
`Optional[float]` — so no composite record is produced (first conjunct).
The promised always-a-record behaviour occurs only when no construction is
reached, as when every fetch fails (second conjunct). -/
theorem country_aggregator_raises_on_date_value :
    get_country_economic_data oneRowProvider "t0" "Japan" =
      Except.error ⟨"value is not a valid float"⟩ ∧
    get_country_economic_data raisingProvider "t0" "Japan" =
      Except.ok (allAbsent "Japan" "t0") :=
  ⟨rfl, rfl⟩

/-- C2: when the uppercased base or quote is not a key of the static table,
the currency-pair endpoint answers HTTP 404 (with the message for whichever
code failed validation), and the response does not depend on the provider or
the clock: no fetch outcome can influence it. -/
theorem currency_pair_unsupported_404 (p p2 : Provider) (now now2 base quote : String)
    (h : CURRENCY_COUNTRY_MAP.lookup (upper base) = none ∨
         CURRENCY_COUNTRY_MAP.lookup (upper quote) = none) :
    (get_currency_pair_data p now base quote =
       Except.error ⟨404, "Currency " ++ upper base ++ " not supported"⟩ ∨
     get_currency_pair_data p now base quote =
       Except.error ⟨404, "Currency " ++ upper quote ++ " not supported"⟩) ∧
    get_currency_pair_data p2 now2 base quote =
      get_currency_pair_data p now base quote := by
  rcases hb : CURRENCY_COUNTRY_MAP.lookup (upper base) with _ | bc
  · constructor
    · left
      simp [get_currency_pair_data, hb]
    · simp [get_currency_pair_data, hb]
  · rcases hq : CURRENCY_COUNTRY_MAP.lookup (upper quote) with _ | qc
    · constructor
      · right
        simp [get_currency_pair_data, hb, hq]
      · simp [get_currency_pair_data, hb, hq]
    · exfalso
      rcases h with h | h
      · simp [hb] at h
      · simp [hq] at h

/-- Witness for C2 at base "xq" (unsupported), quote "usd" (supported). -/
theorem currency_pair_unsupported_404_witness :
    (CURRENCY_COUNTRY_MAP.lookup (upper "xq") = none ∨
     CURRENCY_COUNTRY_MAP.lookup (upper "usd") = none) ∧
    ((get_currency_pair_data raisingProvider "t0" "xq" "usd" =
        Except.error ⟨404, "Currency " ++ upper "xq" ++ " not supported"⟩ ∨
      get_currency_pair_data raisingProvider "t0" "xq" "usd" =
        Except.error ⟨404, "Currency " ++ upper "usd" ++ " not supported"⟩) ∧
     get_currency_pair_data emptyFrameProvider "t1" "xq" "usd" =
       get_currency_pair_data raisingProvider "t0" "xq" "usd") :=
  ⟨Or.inl (by decide),
   currency_pair_unsupported_404 raisingProvider emptyFrameProvider "t0" "t1"
     "xq" "usd" (Or.inl (by decide))⟩

/-- C3: the all-currency-pairs sweep visits exactly the 18 combinations of
`all_pair_combinations` in order, calling the pair composer once for each and
keeping exactly the successful results; the handler is a total function, so
it never raises outward, and the combination list is the 3 by 7 product minus
the three equal pairs. -/
theorem all_currency_pairs_sweep (p : Provider) (now : String) :
    get_all_major_currency_pairs p now =
      all_pair_combinations.filterMap
        (fun bq => (get_currency_pair_data p now bq.1 bq.2).toOption) ∧
    all_pair_combinations.length = 18 ∧
    ∀ bq ∈ all_pair_combinations,
      bq.1 ∈ base_currencies ∧ bq.2 ∈ major_currencies ∧ bq.1 ≠ bq.2 := by
  refine ⟨?_, by decide, by decide⟩
  simp only [get_all_major_currency_pairs, all_pair_combinations,
             base_currencies, List.flatMap_cons, List.flatMap_nil,
             List.filterMap_append, List.append_nil, filterMap_map_filter]
  simp

/-- C4: when the provider fails (raises, returns null, or returns an empty
frame) on all four indicator labels for a country, the indicators endpoint
still answers with the composite record in which all four slots are `none`,
not with an error. -/
theorem indicators_all_fetches_fail_200 (p : Provider) (now country : String)
    (h : ∀ ind ∈ (["Interest Rate", "GDP Growth Rate", "Inflation Rate",
                   "Unemployment Rate"] : List String),
      p country ind = FetchResult.raises ∨
      p country ind = FetchResult.nullResult ∨
      p country ind = FetchResult.frame []) :
    get_country_indicators p now country =
      Except.ok
        { country := country, interest_rate := none, gdp_growth := none,
          inflation_rate := none, unemployment_rate := none,
          last_updated := now } := by
  have hsafe : ∀ ind : String,
      (p country ind = FetchResult.raises ∨
       p country ind = FetchResult.nullResult ∨
       p country ind = FetchResult.frame []) →
      safe_get_indicator_data p country ind = none := by
    intro ind hi
    rcases hi with h1 | h1 | h1 <;> simp [safe_get_indicator_data, h1]
  have h1 := hsafe "Interest Rate" (h _ (by simp))
  have h2 := hsafe "GDP Growth Rate" (h _ (by simp))
  have h3 := hsafe "Inflation Rate" (h _ (by simp))
  have h4 := hsafe "Unemployment Rate" (h _ (by simp))
  simp [get_country_indicators, get_country_economic_data, build_indicator,
        h1, h2, h3, h4, Except.bind]

/-- Witness for C4: the always-raising provider on country "France". -/
theorem indicators_all_fetches_fail_200_witness :
    (∀ ind ∈ (["Interest Rate", "GDP Growth Rate", "Inflation Rate",
               "Unemployment Rate"] : List String),
      raisingProvider "France" ind = FetchResult.raises ∨
      raisingProvider "France" ind = FetchResult.nullResult ∨
      raisingProvider "France" ind = FetchResult.frame []) ∧
    get_country_indicators raisingProvider "t0" "France" =
      Except.ok
        { country := "France", interest_rate := none, gdp_growth := none,
          inflation_rate := none, unemployment_rate := none,
          last_updated := "t0" } :=
  ⟨by decide,
   indicators_all_fetches_fail_200 raisingProvider "t0" "France" (by decide)⟩

/-- C5: every record the Indicator Fetcher returns was built from the last
row of a dataframe the provider returned, with both `value` and `last_update`
taken from that row's LastUpdate column, so the two fields coincide. -/
theorem fetch_success_value_eq_last_update (p : Provider)
    (country ind : String) (d : EconomicIndicator)
    (h : safe_get_indicator_data p country ind = some d) :
    d.value = d.last_update ∧
    ∃ rows latest, p country ind = FetchResult.frame rows ∧
      rows.getLast? = some latest ∧
      d = { country := latest.Country.getD country, indicator := ind,
            value := latest.LastUpdate,
            previous_value := latest.PreviousValue,
            last_update := latest.LastUpdate, unit := latest.Unit,
            frequency := latest.Frequency } := by
  rcases hp : p country ind with _ | _ | rows
  · simp [safe_get_indicator_data, hp] at h
  · simp [safe_get_indicator_data, hp] at h
  · rcases hl : rows.getLast? with _ | latest
    · simp [safe_get_indicator_data, hp, hl] at h
    · simp [safe_get_indicator_data, hp, hl] at h
      subst h
      exact ⟨rfl, rows, latest, rfl, hl, rfl⟩

/-- Witness for C5: the one-row provider yields `sampleIndicator`. -/
theorem fetch_success_value_eq_last_update_witness :
    safe_get_indicator_data oneRowProvider "Japan" "Interest Rate" =
      some sampleIndicator ∧
    (sampleIndicator.value = sampleIndicator.last_update ∧
     ∃ rows latest,
       oneRowProvider "Japan" "Interest Rate" = FetchResult.frame rows ∧
       rows.getLast? = some latest ∧
       sampleIndicator =
         { country := latest.Country.getD "Japan",
           indicator := "Interest Rate", value := latest.LastUpdate,
           previous_value := latest.PreviousValue,
           last_update := latest.LastUpdate, unit := latest.Unit,
           frequency := latest.Frequency }) :=
  ⟨by decide,
   fetch_success_value_eq_last_update oneRowProvider "Japan" "Interest Rate"
     sampleIndicator (by decide)⟩

/-- C6: the currencies endpoint returns exactly the 24 keys of the static
table in its fixed order; it reads no provider state (it takes none), and in
this embedding the table is an immutable constant. -/
theorem currencies_static_24 :
    get_available_currencies =
      ["USD", "EUR", "GBP", "JPY", "CHF", "CAD", "AUD", "NZD", "SEK", "NOK",
       "DKK", "PLN", "CZK", "HUF", "SGD", "HKD", "KRW", "CNY", "INR", "BRL",
       "MXN", "ZAR", "RUB", "TRY"] ∧
    get_available_currencies.length = 24 := by
  constructor <;> decide

/-- C7: when both uppercased codes are table keys, any CurrencyPairData the
pair endpoint returns (it answers 500 instead when an aggregation raises
`ValidationError`) carries the uppercased inputs as `base_currency` and
`quote_currency`, whatever the case of the inputs. -/
theorem currency_pair_uppercases_codes (p : Provider) (now base quote : String)
    (bc qc : String) (r : CurrencyPairData)
    (hb : CURRENCY_COUNTRY_MAP.lookup (upper base) = some bc)
    (hq : CURRENCY_COUNTRY_MAP.lookup (upper quote) = some qc)
    (h : get_currency_pair_data p now base quote = Except.ok r) :
    r.base_currency = upper base ∧ r.quote_currency = upper quote := by
  rcases hB : get_country_economic_data p now bc with e | db
  · simp [get_currency_pair_data, hb, hq, hB] at h
  · rcases hQ : get_country_economic_data p now qc with e | dq
    · simp [get_currency_pair_data, hb, hq, hB, hQ] at h
    · simp [get_currency_pair_data, hb, hq, hB, hQ] at h
      subst h
      exact ⟨rfl, rfl⟩

/-- Witness for C7 at lowercase "usd" and mixed-case "eUr", with all fetches
failing so that the handler returns a record. -/
theorem currency_pair_uppercases_codes_witness :
    CURRENCY_COUNTRY_MAP.lookup (upper "usd") = some "United States" ∧
    CURRENCY_COUNTRY_MAP.lookup (upper "eUr") = some "Euro Area" ∧
    get_currency_pair_data raisingProvider "t0" "usd" "eUr" =
      Except.ok usdEurAllAbsent ∧
    (usdEurAllAbsent.base_currency = upper "usd" ∧
     usdEurAllAbsent.quote_currency = upper "eUr") :=
  ⟨by decide, by decide, rfl,
   currency_pair_uppercases_codes raisingProvider "t0" "usd" "eUr"
     "United States" "Euro Area" usdEurAllAbsent (by decide) (by decide)
     rfl⟩

/-- C8: the claim fails on the code. Without a countries parameter the loop
does cover the first 10 table values, but a successful fetch whose
LastUpdate cell is an ISO timestamp makes the model construction of
src/main.py line 244 — outside any `try` — raise `ValidationError`, so the
endpoint errors out instead of returning that country as an entry (first
conjunct). Only total fetch failure is omitted as the claim describes: when
every fetch fails the endpoint returns the empty list (second conjunct). -/
theorem interest_rates_raises_on_date_value :
    get_interest_rates oneRowProvider none =
      Except.error ⟨"value is not a valid float"⟩ ∧
    get_interest_rates raisingProvider none = Except.ok [] :=
  ⟨rfl, rfl⟩

/-- C9: for each of the four list endpoints, an explicitly empty countries
list resolves to the same default as an omitted parameter, namely the first
10 table values, so the results agree. -/
theorem empty_countries_same_as_none (p : Provider) :
    resolve_countries (some []) = default_major_countries ∧
    resolve_countries none = default_major_countries ∧
    get_interest_rates p (some []) = get_interest_rates p none ∧
    get_gdp_growth p (some []) = get_gdp_growth p none ∧
    get_inflation_rates p (some []) = get_inflation_rates p none ∧
    get_unemployment_rates p (some []) = get_unemployment_rates p none :=
  ⟨rfl, rfl, rfl, rfl, rfl, rfl⟩

/-- C10 counterexample: at the supported code "USD" paired with itself and a
provider returning a one-row frame whose LastUpdate is an ISO timestamp, the
handler answers HTTP 500 — no response carrying the two aggregations is
produced (second conjunct: no CurrencyPairData comes back), though indeed no
404 is raised. -/
theorem currency_pair_same_code_counterexample :
    get_currency_pair_data oneRowProvider "t0" "USD" "USD" =
      Except.error ⟨500, "Error fetching currency pair data"⟩ ∧
    (get_currency_pair_data oneRowProvider "t0" "USD" "USD").toOption =
      none :=
  ⟨rfl, rfl⟩

/-- C10 amended: a supported code paired with itself passes the 404
validation, and the handler behaves as the same-country composition: a
success response carries the one aggregation as both country-data fields,
while an aggregation failure yields the 500 error — never a 404. -/
theorem currency_pair_same_code_no_404 (p : Provider) (now code ctry : String)
    (h : CURRENCY_COUNTRY_MAP.lookup (upper code) = some ctry) :
    get_currency_pair_data p now code code =
      match get_country_economic_data p now ctry with
      | Except.error _ =>
        Except.error ⟨500, "Error fetching currency pair data"⟩
      | Except.ok d =>
        Except.ok
          { base_currency := upper code
            quote_currency := upper code
            base_country_data := d
            quote_country_data := d } := by
  rcases hd : get_country_economic_data p now ctry with e | d <;>
    simp [get_currency_pair_data, h, hd]

/-- Witness for the amended C10 at code "USD" with all fetches failing. -/
theorem currency_pair_same_code_no_404_witness :
    CURRENCY_COUNTRY_MAP.lookup (upper "USD") = some "United States" ∧
    get_currency_pair_data raisingProvider "t0" "USD" "USD" =
      (match get_country_economic_data raisingProvider "t0" "United States" with
       | Except.error _ =>
         Except.error ⟨500, "Error fetching currency pair data"⟩
       | Except.ok d =>
         Except.ok
           { base_currency := upper "USD"
             quote_currency := upper "USD"
             base_country_data := d
             quote_country_data := d }) :=
  ⟨by decide,
   currency_pair_same_code_no_404 raisingProvider "t0" "USD" "United States"
     (by decide)⟩
